import Mathlib

/-!
Verification of the WeatherApp core: the three Source Clients
(weather_api.py, weathermap_api.py, weather_data_api.py), the Aggregator
(data_sources.py) and the interruptible sleep of the Poll Loop (app.py),
shallowly embedded in Lean.

Python dictionaries coming back from a provider are modelled by the `JSON`
inductive type.  `dict.get(key)` returns the stored value, or `null` when the
key is absent; calling `.get` on a non-dict (in particular on `None`) raises
`AttributeError`, which the embedding renders as `Option.none`.  Indexing a
list out of bounds, or indexing a non-list, likewise raises, hence `none`.
-/

/-- A JSON-like value, as produced by `response.json()` in the Python code.
Numbers are modelled by rationals (the transforms only move them around). -/
inductive JSON where
  | null
  | str (s : String)
  | num (q : Rat)
  | bool (b : Bool)
  | arr (elems : List JSON)
  | obj (fields : List (String × JSON))

/-- Association-list lookup used by `JSON.getField`. -/
def lookupField : List (String × JSON) → String → Option JSON
  | [], _ => none
  | (k, v) :: rest, key => if k = key then some v else lookupField rest key

/-- Python `d.get(key)`: on a dict, the stored value or `None` (here
`JSON.null`) when absent; on anything else an `AttributeError` (here
`Option.none`). -/
def JSON.getField : JSON → String → Option JSON
  | .obj fields, key =>
      match lookupField fields key with
      | some v => some v
      | none => some .null
  | _, _ => none

/-- Python `l[i]`: on a list, the element or an `IndexError` (here
`Option.none`) when out of bounds; on anything else a `TypeError`
(here `Option.none`). -/
def JSON.index : JSON → Nat → Option JSON
  | .arr elems, i => elems.get? i
  | _, _ => none

/-- The normalized record `{city, temperature, description}` shared by all
Source Clients.  Each field holds whatever JSON value the provider supplied
(possibly `null`). -/
structure WeatherRecord where
  city : JSON
  temperature : JSON
  description : JSON

namespace WeatherAPI

/-- `WeatherAPI.transform_response` (weather_api.py, lines 18-24):
`city = d.get("location").get("name")`, `temperature =
d.get("current").get("temp_c")`, `description =
d.get("current").get("condition").get("text")`.  `none` means the Python
code raised. -/
def transform_response (weather_data : JSON) : Option WeatherRecord := do
  let location ← weather_data.getField "location"
  let city ← location.getField "name"
  let current ← weather_data.getField "current"
  let temperature ← current.getField "temp_c"
  let current2 ← weather_data.getField "current"
  let condition ← current2.getField "condition"
  let description ← condition.getField "text"
  pure ⟨city, temperature, description⟩

/-- `WeatherAPI.get_weather` (weather_api.py, lines 26-35): one request per
city, in order, each response transformed and appended.  The network is the
oracle `resp`; a raised transform aborts the whole call (`none`). -/
def get_weather (resp : String → JSON) : List String → Option (List WeatherRecord)
  | [] => some []
  | city :: rest => do
      let data ← transform_response (resp city)
      let tail ← get_weather resp rest
      pure (data :: tail)

end WeatherAPI

namespace WeathermapAPI

/-- `WeathermapAPI.transform_response` (weathermap_api.py, lines 17-23):
`city = d.get("name")`, `temperature = d.get("main").get("temp")`,
`description = d.get("weather")[0].get("description")`. -/
def transform_response (weather_data : JSON) : Option WeatherRecord := do
  let city ← weather_data.getField "name"
  let main ← weather_data.getField "main"
  let temperature ← main.getField "temp"
  let weather ← weather_data.getField "weather"
  let first ← weather.index 0
  let description ← first.getField "description"
  pure ⟨city, temperature, description⟩

/-- `WeathermapAPI.get_weather` (weathermap_api.py, lines 25-34): same loop
shape as WeatherAPI.get_weather, against provider B's oracle. -/
def get_weather (resp : String → JSON) : List String → Option (List WeatherRecord)
  | [] => some []
  | city :: rest => do
      let data ← transform_response (resp city)
      let tail ← get_weather resp rest
      pure (data :: tail)

end WeathermapAPI

/-- One row of the local tabular file (weather_data.csv as read by
`csv.DictReader`): every row carries a `city` column plus the remaining
columns. -/
structure Row where
  city : String
  rest : List (String × String)
deriving DecidableEq

namespace WeatherDataAPI

/-- `WeatherDataAPI.get_weather` (weather_data_api.py, lines 14-24): a linear
scan of the file rows (outer loop) against the requested cities (inner loop);
a row is appended once per requested city it equals, by exact string
comparison.  The file contents are the parameter `data`. -/
def get_weather (data : List Row) (cities : List String) : List Row :=
  match data with
  | [] => []
  | city_data :: rest =>
      (cities.filter (fun city => city == city_data.city)).map (fun _ => city_data)
        ++ get_weather rest cities

end WeatherDataAPI

/-- The value stored under a `source_<id>_result` key: WeatherRecords from
the two HTTP providers, raw rows from the local file. -/
inductive SourceResult where
  | recs (l : List WeatherRecord)
  | rows (l : List Row)

/-- Length of the stored sequence. -/
def SourceResult.length : SourceResult → Nat
  | .recs l => l.length
  | .rows l => l.length

/-- The dictionary returned by the Aggregator: either the single-key warning
object or a mapping from `source_<id>_result` keys to source results
(insertion-ordered, as a Python dict). -/
inductive AggResult (V : Type) where
  | warning (msg : String)
  | ok (entries : List (String × V))

/-- The keys of the returned dictionary. -/
def AggResult.keys {V : Type} : AggResult V → List String
  | .warning _ => ["warning"]
  | .ok entries => entries.map Prod.fst

/-- Python dict assignment `d[k] = v`: overwrites in place when the key is
present (keeping its insertion position), appends otherwise. -/
def dictInsert {V : Type} (m : List (String × V)) (k : String) (v : V) :
    List (String × V) :=
  if m.any (fun p => decide (p.1 = k)) then
    m.map (fun p => if p.1 = k then (k, v) else p)
  else
    m ++ [(k, v)]

/-- Reading `d[k]` from the insertion-ordered dictionary. -/
def lookupVal {V : Type} : List (String × V) → String → Option V
  | [], _ => none
  | (k, v) :: rest, key => if k = key then some v else lookupVal rest key

namespace WeatherDataSources

/-- The fetch loop of `WeatherDataSources.get_weather` (data_sources.py,
lines 30-43).  A Source Client call is an effectful step
`List String → σ → Option (V × σ)`: it reads the outside world `σ` (network,
file), returns a value and the successor world, or raises (`none`), in which
case the exception propagates out of the Aggregator. -/
def aggLoop {σ V : Type} (f1 f2 f3 : List String → σ → Option (V × σ))
    (cities : List String) :
    List Int → List (String × V) → σ → Option (List (String × V) × σ)
  | [], result, st => some (result, st)
  | source :: rest, result, st =>
      if source = 1 then
        match f1 cities st with
        | none => none
        | some (source_1_result, st1) =>
            aggLoop f1 f2 f3 cities rest
              (dictInsert result "source_1_result" source_1_result) st1
      else if source = 2 then
        match f2 cities st with
        | none => none
        | some (source_2_result, st2) =>
            aggLoop f1 f2 f3 cities rest
              (dictInsert result "source_2_result" source_2_result) st2
      else if source = 3 then
        match f3 cities st with
        | none => none
        | some (source_3_result, st3) =>
            aggLoop f1 f2 f3 cities rest
              (dictInsert result "source_3_result" source_3_result) st3
      else
        aggLoop f1 f2 f3 cities rest result st

/-- `WeatherDataSources.get_weather` (data_sources.py, lines 17-43): the
empty-cities check, the empty-sources check, the whole-list validity scan
(`for source in sources: if source != 1 and source != 2 and source != 3:
return warning`), then the fetch loop starting from the empty dict. -/
def get_weather {σ V : Type} (f1 f2 f3 : List String → σ → Option (V × σ))
    (cities : List String) (sources : List Int) (st : σ) :
    Option (AggResult V × σ) :=
  if cities.length = 0 then
    some (.warning "no cities were provided", st)
  else if sources.length = 0 then
    some (.warning "no data sources were provided", st)
  else if sources.any (fun source => !(source == 1) && !(source == 2) && !(source == 3)) then
    some (.warning "no valid data sources were provided", st)
  else
    (aggLoop f1 f2 f3 cities sources [] st).map
      (fun p => (.ok p.1, p.2))

end WeatherDataSources

/-- The Aggregator instantiated with the three embedded Source Clients of
this repository: provider A and B behind their network oracles `resp1`,
`resp2`, and the local file contents `data`.  These clients are
deterministic, so the world state is `Unit`. -/
def aggregateApp (resp1 resp2 : String → JSON) (data : List Row)
    (cities : List String) (sources : List Int) :
    Option (AggResult SourceResult) :=
  (WeatherDataSources.get_weather
    (fun cs _ => (WeatherAPI.get_weather resp1 cs).map (fun l => (.recs l, ())))
    (fun cs _ => (WeathermapAPI.get_weather resp2 cs).map (fun l => (.recs l, ())))
    (fun cs _ => some (.rows (WeatherDataAPI.get_weather data cs), ()))
    cities sources ()).map Prod.fst

/-- The key under which source `s`'s result is stored. -/
def sourceKey : Int → String
  | 1 => "source_1_result"
  | 2 => "source_2_result"
  | 3 => "source_3_result"
  | _ => "invalid source"

/-- Keep the first occurrence of each element (the deduplicated sources
list, preserving request order). -/
def firstOccurrences (l : List Int) : List Int :=
  l.foldl (fun acc s => if s ∈ acc then acc else acc ++ [s]) []

namespace WeatherApp

/-- `WeatherApp._interruptible_sleep` (app.py, lines 29-34):
`for _ in range(duration): if self.shutdown_requested: break; time.sleep(1)`.
The asynchronous signal handler is modelled by the external signal
`flag : Nat → Bool` giving the value of `shutdown_requested` after `u`
one-unit sleeps have elapsed.  The function returns how many one-unit
sleeps are performed. -/
def interruptibleSleep (flag : Nat → Bool) : Nat → Nat
  | 0 => 0
  | duration + 1 =>
      if flag 0 then 0
      else interruptibleSleep (fun u => flag (u + 1)) duration + 1

end WeatherApp

/-! ## Helper lemmas about the Source Clients -/

/-- When provider A's transform succeeds on every requested city,
`WeatherAPI.get_weather` succeeds and pairs cities with their transformed
records in request order. -/
theorem getWeatherA_forall₂ (resp : String → JSON) :
    ∀ cities : List String,
      (∀ c ∈ cities, ∃ r, WeatherAPI.transform_response (resp c) = some r) →
      ∃ recs, WeatherAPI.get_weather resp cities = some recs ∧
        List.Forall₂ (fun c r => WeatherAPI.transform_response (resp c) = some r) cities recs
  | [], _ => ⟨[], rfl, List.Forall₂.nil⟩
  | c :: cs, h => by
      obtain ⟨r, hr⟩ := h c (List.mem_cons_self c cs)
      obtain ⟨recs, hrecs, hfa⟩ := getWeatherA_forall₂ resp cs
        (fun x hx => h x (List.mem_cons_of_mem c hx))
      exact ⟨r :: recs, by simp [WeatherAPI.get_weather, hr, hrecs], List.Forall₂.cons hr hfa⟩

/-- Same statement for provider B's client. -/
theorem getWeatherB_forall₂ (resp : String → JSON) :
    ∀ cities : List String,
      (∀ c ∈ cities, ∃ r, WeathermapAPI.transform_response (resp c) = some r) →
      ∃ recs, WeathermapAPI.get_weather resp cities = some recs ∧
        List.Forall₂ (fun c r => WeathermapAPI.transform_response (resp c) = some r) cities recs
  | [], _ => ⟨[], rfl, List.Forall₂.nil⟩
  | c :: cs, h => by
      obtain ⟨r, hr⟩ := h c (List.mem_cons_self c cs)
      obtain ⟨recs, hrecs, hfa⟩ := getWeatherB_forall₂ resp cs
        (fun x hx => h x (List.mem_cons_of_mem c hx))
      exact ⟨r :: recs, by simp [WeathermapAPI.get_weather, hr, hrecs], List.Forall₂.cons hr hfa⟩

/-- If a per-city fetch-and-transform `f` always yields a record whose city
field echoes the requested name, the record list paired to the cities by
`Forall₂` lists exactly the requested city names, in request order. -/
theorem forall₂_map_city (f : String → Option WeatherRecord) :
    ∀ (cities : List String) (recs : List WeatherRecord),
      List.Forall₂ (fun c r => f c = some r) cities recs →
      (∀ c ∈ cities, ∃ r, f c = some r ∧ r.city = .str c) →
      recs.map WeatherRecord.city = cities.map JSON.str
  | _, _, List.Forall₂.nil, _ => rfl
  | c :: cs, r :: rs, List.Forall₂.cons hcr htail, h => by
      obtain ⟨r₀, hr₀, hcity⟩ := h c (List.mem_cons_self c cs)
      have hr : r₀ = r := Option.some.inj (hr₀.symm.trans hcr)
      subst hr
      simp only [List.map_cons, hcity]
      rw [forall₂_map_city f cs rs htail
        (fun x hx => h x (List.mem_cons_of_mem c hx))]

/-! ## Helper lemmas about the interruptible sleep -/

/-- The interruptible sleep never sleeps more than the configured duration. -/
theorem WeatherApp.interruptibleSleep_le :
    ∀ (d : Nat) (flag : Nat → Bool), WeatherApp.interruptibleSleep flag d ≤ d
  | 0, _ => Nat.le_refl 0
  | d + 1, flag => by
      unfold WeatherApp.interruptibleSleep
      by_cases h : flag 0 = true
      · simp [h]
      · simp only [h, if_false]
        exact Nat.succ_le_succ (WeatherApp.interruptibleSleep_le d _)

/-- If the flag is never raised during the wait, the full duration is slept,
one unit at a time. -/
theorem WeatherApp.interruptibleSleep_full :
    ∀ (d : Nat) (flag : Nat → Bool), (∀ u, u < d → flag u = false) →
      WeatherApp.interruptibleSleep flag d = d
  | 0, _, _ => rfl
  | d + 1, flag, h => by
      unfold WeatherApp.interruptibleSleep
      rw [h 0 (Nat.succ_pos d), if_neg (by simp)]
      rw [WeatherApp.interruptibleSleep_full d _
        (fun u hu => h (u + 1) (Nat.succ_lt_succ hu))]

/-- If the flag is raised no later than after `t` elapsed units, at most `t`
one-unit sleeps are performed. -/
theorem WeatherApp.interruptibleSleep_exit :
    ∀ (d t : Nat) (flag : Nat → Bool), (∀ u, t ≤ u → flag u = true) →
      WeatherApp.interruptibleSleep flag d ≤ t
  | 0, t, _, _ => Nat.zero_le t
  | d + 1, 0, flag, h => by
      unfold WeatherApp.interruptibleSleep
      rw [h 0 (Nat.le_refl 0), if_pos rfl]
  | d + 1, t + 1, flag, h => by
      unfold WeatherApp.interruptibleSleep
      by_cases h0 : flag 0 = true
      · simp [h0]
      · simp only [h0, if_false]
        exact Nat.succ_le_succ (WeatherApp.interruptibleSleep_exit d t _
          (fun u hu => h (u + 1) (Nat.succ_le_succ hu)))

/-! ## The claims -/

/-- C6: provider A's transform maps the documented Berlin response to
`{city: "Berlin", temperature: 18.5, description: "Scattered clouds"}`;
a `null` `condition.text` yields a `null` description; and a response
lacking the `current` key makes the transformation fail instead of
producing a default record. -/
theorem C6_providerA_transform :
    WeatherAPI.transform_response (.obj [("location", .obj [("name", .str "Berlin")]),
        ("current", .obj [("temp_c", .num 18.5),
          ("condition", .obj [("text", .str "Scattered clouds")])])]) =
      some ⟨.str "Berlin", .num 18.5, .str "Scattered clouds"⟩ ∧
    WeatherAPI.transform_response (.obj [("location", .obj [("name", .str "Berlin")]),
        ("current", .obj [("temp_c", .num 18.5),
          ("condition", .obj [("text", .null)])])]) =
      some ⟨.str "Berlin", .num 18.5, .null⟩ ∧
    ∀ fields : List (String × JSON), lookupField fields "current" = none →
      WeatherAPI.transform_response (.obj fields) = none := by
  refine ⟨rfl, rfl, ?_⟩
  intro fields h
  unfold WeatherAPI.transform_response
  rcases hl : (JSON.obj fields).getField "location" with _ | loc
  · simp [hl]
  · rcases hn : loc.getField "name" with _ | city
    · simp [hl, hn]
    · simp [hl, hn, h, JSON.getField]

/-- Witness for C6: a response with no `current` key (here, only a
`location`) makes provider A's transformation raise. -/
theorem C6_providerA_transform_witness :
    lookupField [("location", JSON.obj [("name", JSON.str "Berlin")])] "current" = none ∧
    WeatherAPI.transform_response
      (.obj [("location", .obj [("name", .str "Berlin")])]) = none :=
  ⟨rfl, C6_providerA_transform.2.2 _ rfl⟩

/-- C7: provider B's transform maps the documented Sydney response to
`{city: "Sydney", temperature: 22.1, description: "Sunny"}`, and any
response whose `weather` field is an empty array makes the transformation
fail (index out of bounds) instead of returning a record. -/
theorem C7_providerB_transform :
    WeathermapAPI.transform_response (.obj [("name", .str "Sydney"),
        ("main", .obj [("temp", .num 22.1)]),
        ("weather", .arr [.obj [("description", .str "Sunny")]])]) =
      some ⟨.str "Sydney", .num 22.1, .str "Sunny"⟩ ∧
    ∀ d : JSON, d.getField "weather" = some (.arr []) →
      WeathermapAPI.transform_response d = none := by
  refine ⟨rfl, ?_⟩
  intro d h
  unfold WeathermapAPI.transform_response
  rcases hn : d.getField "name" with _ | city
  · simp [hn]
  · rcases hm : d.getField "main" with _ | main
    · simp [hn, hm]
    · rcases ht : main.getField "temp" with _ | temperature
      · simp [hn, hm, ht]
      · simp [hn, hm, ht, h, JSON.index]

/-- Witness for C7: an otherwise well-formed Sydney response with an empty
`weather` array makes provider B's transformation raise. -/
theorem C7_providerB_transform_witness :
    (JSON.obj [("name", .str "Sydney"), ("main", .obj [("temp", .num 22.1)]),
      ("weather", .arr [])]).getField "weather" = some (.arr []) ∧
    WeathermapAPI.transform_response (.obj [("name", .str "Sydney"),
      ("main", .obj [("temp", .num 22.1)]), ("weather", .arr [])]) = none :=
  ⟨rfl, C7_providerB_transform.2 _ rfl⟩

/-- C3 counterexample: Source Client 3 (the local file scan) does not order
its records by the requested city list.  With the file holding a Sydney row
before a Berlin row and the request `["Berlin", "Sydney"]`, the returned
cities are `["Sydney", "Berlin"]` — file order, not request order. -/
theorem C3_order_counterexample :
    (WeatherDataAPI.get_weather [⟨"Sydney", []⟩, ⟨"Berlin", []⟩]
        ["Berlin", "Sydney"]).map Row.city = ["Sydney", "Berlin"] ∧
    (["Sydney", "Berlin"] : List String) ≠ ["Berlin", "Sydney"] := by
  exact ⟨rfl, by decide⟩

/-- C3 amended: Source Clients 1 and 2 return one record per requested city
in request order — whenever each provider response transforms successfully
into a record echoing the requested city name, the returned city sequence
equals the requested city list.  (Source Client 3 is excluded: it returns
rows in file-scan order.) -/
theorem C3_order_amended (resp1 resp2 : String → JSON) (cities : List String)
    (h1 : ∀ c ∈ cities, ∃ r, WeatherAPI.transform_response (resp1 c) = some r ∧
      r.city = .str c)
    (h2 : ∀ c ∈ cities, ∃ r, WeathermapAPI.transform_response (resp2 c) = some r ∧
      r.city = .str c) :
    (∃ recs, WeatherAPI.get_weather resp1 cities = some recs ∧
      recs.map WeatherRecord.city = cities.map JSON.str) ∧
    (∃ recs, WeathermapAPI.get_weather resp2 cities = some recs ∧
      recs.map WeatherRecord.city = cities.map JSON.str) := by
  constructor
  · obtain ⟨recs, hr, hfa⟩ := getWeatherA_forall₂ resp1 cities
      (fun c hc => (h1 c hc).imp (fun _ h => h.1))
    exact ⟨recs, hr, forall₂_map_city _ cities recs hfa h1⟩
  · obtain ⟨recs, hr, hfa⟩ := getWeatherB_forall₂ resp2 cities
      (fun c hc => (h2 c hc).imp (fun _ h => h.1))
    exact ⟨recs, hr, forall₂_map_city _ cities recs hfa h2⟩

/-- Witness for the amended C3: concrete well-behaved oracles for both
providers, requesting `["Berlin", "Sydney"]`. -/
theorem C3_order_amended_witness :
    (∃ recs, WeatherAPI.get_weather
        (fun c => .obj [("location", .obj [("name", .str c)]),
          ("current", .obj [("temp_c", .num 0), ("condition", .obj [("text", .null)])])])
        ["Berlin", "Sydney"] = some recs ∧
      recs.map WeatherRecord.city = (["Berlin", "Sydney"] : List String).map JSON.str) ∧
    (∃ recs, WeathermapAPI.get_weather
        (fun c => .obj [("name", .str c), ("main", .obj [("temp", .num 0)]),
          ("weather", .arr [.obj []])])
        ["Berlin", "Sydney"] = some recs ∧
      recs.map WeatherRecord.city = (["Berlin", "Sydney"] : List String).map JSON.str) :=
  C3_order_amended _ _ ["Berlin", "Sydney"]
    (fun c _ => ⟨⟨.str c, .num 0, .null⟩, rfl, rfl⟩)
    (fun c _ => ⟨⟨.str c, .num 0, .null⟩, rfl, rfl⟩)

/-- C8: the Local Tabular Source matches requested cities by exact
(case-sensitive) string equality in a linear scan: every returned row comes
from the file and has a requested city name, and when no file row's city is
requested the result is the empty sequence — never an error (the function
is total). -/
theorem C8_local_lookup (data : List Row) (cities : List String) :
    (∀ r ∈ WeatherDataAPI.get_weather data cities, r ∈ data ∧ r.city ∈ cities) ∧
    ((∀ r ∈ data, r.city ∉ cities) → WeatherDataAPI.get_weather data cities = []) := by
  induction data with
  | nil => exact ⟨by simp [WeatherDataAPI.get_weather], fun _ => rfl⟩
  | cons city_data rest ih =>
      constructor
      · intro r hr
        simp only [WeatherDataAPI.get_weather, List.mem_append] at hr
        rcases hr with hr | hr
        · simp only [List.mem_map, List.mem_filter] at hr
          obtain ⟨c, ⟨hc, hceq⟩, hrc⟩ := hr
          subst hrc
          refine ⟨List.mem_cons_self _ _, ?_⟩
          rw [show city_data.city = c from (eq_of_beq hceq).symm]
          exact hc
        · exact ⟨List.mem_cons_of_mem _ (ih.1 r hr).1, (ih.1 r hr).2⟩
      · intro h
        have hhead : cities.filter (fun city => city == city_data.city) = [] := by
          rw [List.filter_eq_nil_iff]
          intro c hc hbeq
          exact h city_data (List.mem_cons_self _ _)
            ((eq_of_beq hbeq) ▸ hc)
        simp only [WeatherDataAPI.get_weather, hhead, List.map_nil, List.nil_append]
        exact ih.2 (fun r hr => h r (List.mem_cons_of_mem _ hr))

/-- Witness for C8: lookup is case-sensitive — a file row for "berlin" is
not matched by a request for "Berlin", so the result is empty (no error). -/
theorem C8_local_lookup_witness :
    WeatherDataAPI.get_weather [⟨"berlin", []⟩] ["Berlin"] = [] :=
  (C8_local_lookup [⟨"berlin", []⟩] ["Berlin"]).2 (by decide)

/-- C4: with an empty cities list the Aggregator returns exactly
`{warning: "no cities were provided"}`, whatever the sources list is (empty,
invalid or valid) and whatever the Source Clients would do — the check
precedes the empty-sources and invalid-sources checks and no fetch happens
(the world state `st` is returned unchanged, for arbitrary fetchers). -/
theorem C4_empty_cities {σ V : Type} (f1 f2 f3 : List String → σ → Option (V × σ))
    (sources : List Int) (st : σ) :
    WeatherDataSources.get_weather f1 f2 f3 [] sources st =
      some (.warning "no cities were provided", st) := rfl

/-- C1: whenever any requested source identifier lies outside {1,2,3} (with
cities and sources non-empty), the Aggregator returns exactly
`{warning: "no valid data sources were provided"}` and invokes no Source
Client: the equation holds for every fetcher triple — including ones that
would raise — and returns the world state `st` untouched. -/
theorem C1_invalid_source_warning {σ V : Type}
    (f1 f2 f3 : List String → σ → Option (V × σ))
    (cities : List String) (sources : List Int) (st : σ)
    (hc : cities ≠ []) (hs : sources ≠ [])
    (hinv : ∃ s ∈ sources, ¬(s = 1 ∨ s = 2 ∨ s = 3)) :
    WeatherDataSources.get_weather f1 f2 f3 cities sources st =
      some (.warning "no valid data sources were provided", st) := by
  have hc' : ¬cities.length = 0 := by simpa [List.length_eq_zero] using hc
  have hs' : ¬sources.length = 0 := by simpa [List.length_eq_zero] using hs
  have ha : sources.any
      (fun source => !(source == 1) && !(source == 2) && !(source == 3)) = true := by
    obtain ⟨s, hmem, hbad⟩ := hinv
    push_neg at hbad
    exact List.any_eq_true.mpr ⟨s, hmem, by simp [hbad.1, hbad.2.1, hbad.2.2]⟩
  simp [WeatherDataSources.get_weather, hc', hs', ha]

/-- Witness for C1: sources `[1, 5, 2]` contain valid identifiers and the
invalid `5`; with fetchers that would raise on any invocation, the
Aggregator still returns the warning — so no fetch was attempted. -/
theorem C1_invalid_source_warning_witness :
    WeatherDataSources.get_weather
      (fun _ (_ : Unit) => (none : Option (Nat × Unit)))
      (fun _ _ => none) (fun _ _ => none)
      ["Berlin"] [1, 5, 2] () =
      some (.warning "no valid data sources were provided", ()) :=
  C1_invalid_source_warning _ _ _ _ _ _ (by decide) (by decide)
    ⟨5, by decide, by decide⟩

/-- C9: the inter-tick wait of `n` is decomposed into `n` one-unit waits
with the shutdown flag checked before each unit: (i) at most `n` units are
slept; (ii) if the flag is never raised during the wait the full `n` units
are slept; (iii) if the flag is already set when the wait begins, zero
one-unit waits are performed; (iv) if the flag is set from elapsed time `t`
on, at most `t` units are slept — the loop exits within one time unit of
the shutdown request instead of waiting out the full interval. -/
theorem C9_interruptible_wait (flag : Nat → Bool) (d t : Nat) :
    WeatherApp.interruptibleSleep flag d ≤ d ∧
    ((∀ u, u < d → flag u = false) → WeatherApp.interruptibleSleep flag d = d) ∧
    (flag 0 = true → WeatherApp.interruptibleSleep flag d = 0) ∧
    ((∀ u, t ≤ u → flag u = true) → WeatherApp.interruptibleSleep flag d ≤ t) := by
  refine ⟨WeatherApp.interruptibleSleep_le d flag,
    WeatherApp.interruptibleSleep_full d flag, ?_,
    WeatherApp.interruptibleSleep_exit d t flag⟩
  intro h0
  cases d with
  | zero => rfl
  | succ d => unfold WeatherApp.interruptibleSleep; rw [h0, if_pos rfl]

/-- Witness for C9, at interval 10: a shutdown raised after 2 elapsed units
stops the wait within 2 units; a never-raised flag sleeps all 10; an
already-set flag sleeps 0. -/
theorem C9_interruptible_wait_witness :
    WeatherApp.interruptibleSleep (fun u => decide (2 ≤ u)) 10 ≤ 2 ∧
    WeatherApp.interruptibleSleep (fun _ => false) 10 = 10 ∧
    WeatherApp.interruptibleSleep (fun _ => true) 10 = 0 :=
  ⟨(C9_interruptible_wait (fun u => decide (2 ≤ u)) 10 2).2.2.2
      (fun _u hu => decide_eq_true hu),
    (C9_interruptible_wait (fun _ => false) 10 0).2.1 (fun _ _ => rfl),
    (C9_interruptible_wait (fun _ => true) 10 0).2.2.1 rfl⟩

/-! ## Helper lemmas about the aggregation dictionary -/

/-- Point reads at a different key are unchanged by the overwrite pass of
`dictInsert`. -/
theorem lookup_map_overwrite {V : Type} (k k' : String) (v : V) (h : k' ≠ k) :
    ∀ m : List (String × V),
      lookupVal (m.map fun p => if p.1 = k then (k, v) else p) k' = lookupVal m k'
  | [] => rfl
  | (a, b) :: rest => by
      simp only [List.map_cons]
      by_cases hp : a = k
      · rw [if_pos hp]
        simp only [lookupVal]
        rw [if_neg (Ne.symm h), if_neg (fun ha => h (ha.symm.trans hp))]
        exact lookup_map_overwrite k k' v h rest
      · rw [if_neg hp]
        simp only [lookupVal]
        by_cases ha : a = k'
        · rw [if_pos ha, if_pos ha]
        · rw [if_neg ha, if_neg ha]
          exact lookup_map_overwrite k k' v h rest

/-- Point reads at a different key are unchanged by appending a pair. -/
theorem lookup_append_single {V : Type} (k k' : String) (v : V) (h : k' ≠ k) :
    ∀ m : List (String × V),
      lookupVal (m ++ [(k, v)]) k' = lookupVal m k'
  | [] => by
      simp only [List.nil_append, lookupVal]
      rw [if_neg (Ne.symm h)]
  | (a, b) :: rest => by
      simp only [List.cons_append, lookupVal]
      by_cases ha : a = k'
      · rw [if_pos ha, if_pos ha]
      · rw [if_neg ha, if_neg ha]
        exact lookup_append_single k k' v h rest

/-- `d[k] = v` makes `d[k]` read back `v`. -/
theorem lookup_dictInsert_self {V : Type} (k : String) (v : V)
    (m : List (String × V)) : lookupVal (dictInsert m k v) k = some v := by
  unfold dictInsert
  by_cases h : m.any (fun p => decide (p.1 = k)) = true
  · rw [if_pos h]
    induction m with
    | nil => simp at h
    | cons p rest ih =>
        obtain ⟨a, b⟩ := p
        simp only [List.map_cons]
        by_cases hp : a = k
        · rw [if_pos hp]
          simp [lookupVal]
        · have h' := h
          simp only [List.any_cons, Bool.or_eq_true, decide_eq_true_eq] at h'
          rcases h' with h' | h'
          · exact absurd h' hp
          · rw [if_neg hp]
            simp only [lookupVal]
            rw [if_neg hp]
            exact ih (by simpa using h')
  · rw [if_neg h]
    induction m with
    | nil => simp [lookupVal]
    | cons p rest ih =>
        obtain ⟨a, b⟩ := p
        have h' := h
        simp only [List.any_cons, Bool.or_eq_true, decide_eq_true_eq, not_or] at h'
        simp only [List.cons_append, lookupVal]
        rw [if_neg h'.1]
        exact ih (by simpa using h'.2)

/-- `d[k] = v` leaves every other key's value alone. -/
theorem lookup_dictInsert_ne {V : Type} (k k' : String) (v : V) (h : k' ≠ k)
    (m : List (String × V)) :
    lookupVal (dictInsert m k v) k' = lookupVal m k' := by
  unfold dictInsert
  by_cases ha : m.any (fun p => decide (p.1 = k)) = true
  · rw [if_pos ha]; exact lookup_map_overwrite k k' v h m
  · rw [if_neg ha]; exact lookup_append_single k k' v h m

/-- Key membership after `d[k] = v`: the old keys plus `k`. -/
theorem mem_keys_dictInsert {V : Type} (m : List (String × V)) (k k' : String)
    (v : V) :
    k' ∈ (dictInsert m k v).map Prod.fst ↔ k' ∈ m.map Prod.fst ∨ k' = k := by
  unfold dictInsert
  by_cases h : m.any (fun p => decide (p.1 = k)) = true
  · rw [if_pos h]
    obtain ⟨p₀, hp₀, hd⟩ := List.any_eq_true.mp h
    have hp₀k : p₀.1 = k := of_decide_eq_true hd
    have hmap : (m.map fun p => if p.1 = k then (k, v) else p).map Prod.fst =
        m.map Prod.fst := by
      rw [List.map_map]
      refine List.map_congr_left ?_
      intro p _
      by_cases hp : p.1 = k
      · simp only [Function.comp_apply]
        rw [if_pos hp]
        exact hp.symm
      · simp only [Function.comp_apply]
        rw [if_neg hp]
    rw [hmap]
    constructor
    · exact Or.inl
    · rintro (hk | rfl)
      · exact hk
      · exact hp₀k ▸ List.mem_map.mpr ⟨p₀, hp₀, rfl⟩
  · rw [if_neg h]
    simp [List.mem_append]

/-! ## Equation lemmas for the Aggregator fetch loop -/

theorem aggLoop_nil {σ V : Type} (f1 f2 f3 : List String → σ → Option (V × σ))
    (cities : List String) (acc : List (String × V)) (st : σ) :
    WeatherDataSources.aggLoop f1 f2 f3 cities [] acc st = some (acc, st) := rfl

theorem aggLoop_cons_one {σ V : Type} (f1 f2 f3 : List String → σ → Option (V × σ))
    (cities : List String) (rest : List Int) (acc : List (String × V)) (st : σ)
    (v : V) (st' : σ) (hf : f1 cities st = some (v, st')) :
    WeatherDataSources.aggLoop f1 f2 f3 cities (1 :: rest) acc st =
      WeatherDataSources.aggLoop f1 f2 f3 cities rest
        (dictInsert acc "source_1_result" v) st' := by
  simp only [WeatherDataSources.aggLoop]
  rw [if_pos trivial, hf]

theorem aggLoop_cons_two {σ V : Type} (f1 f2 f3 : List String → σ → Option (V × σ))
    (cities : List String) (rest : List Int) (acc : List (String × V)) (st : σ)
    (v : V) (st' : σ) (hf : f2 cities st = some (v, st')) :
    WeatherDataSources.aggLoop f1 f2 f3 cities (2 :: rest) acc st =
      WeatherDataSources.aggLoop f1 f2 f3 cities rest
        (dictInsert acc "source_2_result" v) st' := by
  simp only [WeatherDataSources.aggLoop]
  rw [if_neg (show (2 : Int) ≠ 1 by decide), if_pos trivial, hf]

theorem aggLoop_cons_three {σ V : Type} (f1 f2 f3 : List String → σ → Option (V × σ))
    (cities : List String) (rest : List Int) (acc : List (String × V)) (st : σ)
    (v : V) (st' : σ) (hf : f3 cities st = some (v, st')) :
    WeatherDataSources.aggLoop f1 f2 f3 cities (3 :: rest) acc st =
      WeatherDataSources.aggLoop f1 f2 f3 cities rest
        (dictInsert acc "source_3_result" v) st' := by
  simp only [WeatherDataSources.aggLoop]
  rw [if_neg (show (3 : Int) ≠ 1 by decide), if_neg (show (3 : Int) ≠ 2 by decide),
    if_pos trivial, hf]

theorem aggLoop_cons_one_none {σ V : Type}
    (f1 f2 f3 : List String → σ → Option (V × σ)) (cities : List String)
    (rest : List Int) (acc : List (String × V)) (st : σ)
    (hf : f1 cities st = none) :
    WeatherDataSources.aggLoop f1 f2 f3 cities (1 :: rest) acc st = none := by
  simp only [WeatherDataSources.aggLoop]
  rw [if_pos trivial, hf]

theorem aggLoop_cons_two_none {σ V : Type}
    (f1 f2 f3 : List String → σ → Option (V × σ)) (cities : List String)
    (rest : List Int) (acc : List (String × V)) (st : σ)
    (hf : f2 cities st = none) :
    WeatherDataSources.aggLoop f1 f2 f3 cities (2 :: rest) acc st = none := by
  simp only [WeatherDataSources.aggLoop]
  rw [if_neg (show (2 : Int) ≠ 1 by decide), if_pos trivial, hf]

theorem aggLoop_cons_three_none {σ V : Type}
    (f1 f2 f3 : List String → σ → Option (V × σ)) (cities : List String)
    (rest : List Int) (acc : List (String × V)) (st : σ)
    (hf : f3 cities st = none) :
    WeatherDataSources.aggLoop f1 f2 f3 cities (3 :: rest) acc st = none := by
  simp only [WeatherDataSources.aggLoop]
  rw [if_neg (show (3 : Int) ≠ 1 by decide), if_neg (show (3 : Int) ≠ 2 by decide),
    if_pos trivial, hf]

theorem aggLoop_cons_skip {σ V : Type}
    (f1 f2 f3 : List String → σ → Option (V × σ)) (cities : List String)
    (s : Int) (rest : List Int) (acc : List (String × V)) (st : σ)
    (h1 : s ≠ 1) (h2 : s ≠ 2) (h3 : s ≠ 3) :
    WeatherDataSources.aggLoop f1 f2 f3 cities (s :: rest) acc st =
      WeatherDataSources.aggLoop f1 f2 f3 cities rest acc st := by
  simp only [WeatherDataSources.aggLoop]
  rw [if_neg h1, if_neg h2, if_neg h3]

/-! ## Walking the fetch loop -/

/-- `sourceKey` never collides with the warning key on valid identifiers. -/
theorem sourceKey_ne_warning (s : Int) (h : s = 1 ∨ s = 2 ∨ s = 3) :
    sourceKey s ≠ "warning" := by
  rcases h with rfl | rfl | rfl <;> decide

/-- `sourceKey` is injective on valid identifiers. -/
theorem sourceKey_inj (s t : Int) (hs : s = 1 ∨ s = 2 ∨ s = 3)
    (ht : t = 1 ∨ t = 2 ∨ t = 3) (hne : s ≠ t) : sourceKey s ≠ sourceKey t := by
  rcases hs with rfl | rfl | rfl <;> rcases ht with rfl | rfl | rfl <;>
    first
      | exact absurd rfl hne
      | decide

/-- When every requested source is valid, the three input checks fall
through and the Aggregator is the fetch loop started from the empty dict. -/
theorem get_weather_valid {σ V : Type} (f1 f2 f3 : List String → σ → Option (V × σ))
    (cities : List String) (sources : List Int) (st : σ)
    (hc : cities ≠ []) (hs : sources ≠ [])
    (hv : ∀ s ∈ sources, s = 1 ∨ s = 2 ∨ s = 3) :
    WeatherDataSources.get_weather f1 f2 f3 cities sources st =
      (WeatherDataSources.aggLoop f1 f2 f3 cities sources [] st).map
        (fun p => (.ok p.1, p.2)) := by
  have hc' : ¬cities.length = 0 := by simpa [List.length_eq_zero] using hc
  have hs' : ¬sources.length = 0 := by simpa [List.length_eq_zero] using hs
  have ha : sources.any
      (fun source => !(source == 1) && !(source == 2) && !(source == 3)) = false := by
    rw [List.any_eq_false]
    intro s hsm
    rcases hv s hsm with h | h | h <;> simp [h]
  simp [WeatherDataSources.get_weather, hc', hs', ha]

/-- Keys present after running the fetch loop: the keys already accumulated
plus one `source_<id>_result` key per valid requested source. -/
theorem aggLoop_mem_keys {σ V : Type} (f1 f2 f3 : List String → σ → Option (V × σ))
    (cities : List String) :
    ∀ (sources : List Int) (acc : List (String × V)) (st : σ)
      (out : List (String × V) × σ),
      WeatherDataSources.aggLoop f1 f2 f3 cities sources acc st = some out →
      ∀ k, k ∈ out.1.map Prod.fst ↔
        k ∈ acc.map Prod.fst ∨
          ∃ s ∈ sources, (s = 1 ∨ s = 2 ∨ s = 3) ∧ k = sourceKey s
  | [], acc, st, out, h, k => by
      rw [aggLoop_nil] at h
      cases h
      simp
  | s :: rest, acc, st, out, h, k => by
      by_cases h1 : s = 1
      · subst h1
        rcases hf : f1 cities st with _ | ⟨v, st1⟩
        · rw [aggLoop_cons_one_none f1 f2 f3 cities rest acc st hf] at h
          exact Option.noConfusion h
        · rw [aggLoop_cons_one f1 f2 f3 cities rest acc st v st1 hf] at h
          rw [aggLoop_mem_keys f1 f2 f3 cities rest _ st1 out h k,
            mem_keys_dictInsert]
          constructor
          · rintro ((hk | rfl) | ⟨t, htm, hval, rfl⟩)
            · exact Or.inl hk
            · exact Or.inr ⟨1, List.mem_cons_self _ _, Or.inl rfl, rfl⟩
            · exact Or.inr ⟨t, List.mem_cons_of_mem _ htm, hval, rfl⟩
          · rintro (hk | ⟨t, htm, hval, rfl⟩)
            · exact Or.inl (Or.inl hk)
            · rcases List.mem_cons.mp htm with rfl | htm'
              · exact Or.inl (Or.inr rfl)
              · exact Or.inr ⟨t, htm', hval, rfl⟩
      by_cases h2 : s = 2
      · subst h2
        rcases hf : f2 cities st with _ | ⟨v, st2⟩
        · rw [aggLoop_cons_two_none f1 f2 f3 cities rest acc st hf] at h
          exact Option.noConfusion h
        · rw [aggLoop_cons_two f1 f2 f3 cities rest acc st v st2 hf] at h
          rw [aggLoop_mem_keys f1 f2 f3 cities rest _ st2 out h k,
            mem_keys_dictInsert]
          constructor
          · rintro ((hk | rfl) | ⟨t, htm, hval, rfl⟩)
            · exact Or.inl hk
            · exact Or.inr ⟨2, List.mem_cons_self _ _, Or.inr (Or.inl rfl), rfl⟩
            · exact Or.inr ⟨t, List.mem_cons_of_mem _ htm, hval, rfl⟩
          · rintro (hk | ⟨t, htm, hval, rfl⟩)
            · exact Or.inl (Or.inl hk)
            · rcases List.mem_cons.mp htm with rfl | htm'
              · exact Or.inl (Or.inr rfl)
              · exact Or.inr ⟨t, htm', hval, rfl⟩
      by_cases h3 : s = 3
      · subst h3
        rcases hf : f3 cities st with _ | ⟨v, st3⟩
        · rw [aggLoop_cons_three_none f1 f2 f3 cities rest acc st hf] at h
          exact Option.noConfusion h
        · rw [aggLoop_cons_three f1 f2 f3 cities rest acc st v st3 hf] at h
          rw [aggLoop_mem_keys f1 f2 f3 cities rest _ st3 out h k,
            mem_keys_dictInsert]
          constructor
          · rintro ((hk | rfl) | ⟨t, htm, hval, rfl⟩)
            · exact Or.inl hk
            · exact Or.inr ⟨3, List.mem_cons_self _ _, Or.inr (Or.inr rfl), rfl⟩
            · exact Or.inr ⟨t, List.mem_cons_of_mem _ htm, hval, rfl⟩
          · rintro (hk | ⟨t, htm, hval, rfl⟩)
            · exact Or.inl (Or.inl hk)
            · rcases List.mem_cons.mp htm with rfl | htm'
              · exact Or.inl (Or.inr rfl)
              · exact Or.inr ⟨t, htm', hval, rfl⟩
      · rw [aggLoop_cons_skip f1 f2 f3 cities s rest acc st h1 h2 h3] at h
        rw [aggLoop_mem_keys f1 f2 f3 cities rest acc st out h k]
        constructor
        · rintro (hk | ⟨t, htm, hval, rfl⟩)
          · exact Or.inl hk
          · exact Or.inr ⟨t, List.mem_cons_of_mem _ htm, hval, rfl⟩
        · rintro (hk | ⟨t, htm, hval, rfl⟩)
          · exact Or.inl hk
          · rcases List.mem_cons.mp htm with rfl | htm'
            · rcases hval with h | h | h
              · exact absurd h h1
              · exact absurd h h2
              · exact absurd h h3
            · exact Or.inr ⟨t, htm', hval, rfl⟩

/-- Keys not written by any remaining source keep their looked-up value. -/
theorem aggLoop_lookup_untouched {σ V : Type}
    (f1 f2 f3 : List String → σ → Option (V × σ)) (cities : List String) :
    ∀ (sources : List Int) (acc : List (String × V)) (st : σ)
      (out : List (String × V) × σ) (k : String),
      WeatherDataSources.aggLoop f1 f2 f3 cities sources acc st = some out →
      (∀ s ∈ sources, sourceKey s ≠ k) →
      lookupVal out.1 k = lookupVal acc k
  | [], acc, st, out, k, h, _ => by
      rw [aggLoop_nil] at h
      cases h
      rfl
  | s :: rest, acc, st, out, k, h, hk => by
      have hktail : ∀ t ∈ rest, sourceKey t ≠ k :=
        fun t ht => hk t (List.mem_cons_of_mem _ ht)
      by_cases h1 : s = 1
      · subst h1
        rcases hf : f1 cities st with _ | ⟨v, st1⟩
        · rw [aggLoop_cons_one_none f1 f2 f3 cities rest acc st hf] at h
          exact Option.noConfusion h
        · rw [aggLoop_cons_one f1 f2 f3 cities rest acc st v st1 hf] at h
          rw [aggLoop_lookup_untouched f1 f2 f3 cities rest _ st1 out k h hktail]
          exact lookup_dictInsert_ne "source_1_result" k v
            (Ne.symm (hk 1 (List.mem_cons_self _ _))) acc
      by_cases h2 : s = 2
      · subst h2
        rcases hf : f2 cities st with _ | ⟨v, st2⟩
        · rw [aggLoop_cons_two_none f1 f2 f3 cities rest acc st hf] at h
          exact Option.noConfusion h
        · rw [aggLoop_cons_two f1 f2 f3 cities rest acc st v st2 hf] at h
          rw [aggLoop_lookup_untouched f1 f2 f3 cities rest _ st2 out k h hktail]
          exact lookup_dictInsert_ne "source_2_result" k v
            (Ne.symm (hk 2 (List.mem_cons_self _ _))) acc
      by_cases h3 : s = 3
      · subst h3
        rcases hf : f3 cities st with _ | ⟨v, st3⟩
        · rw [aggLoop_cons_three_none f1 f2 f3 cities rest acc st hf] at h
          exact Option.noConfusion h
        · rw [aggLoop_cons_three f1 f2 f3 cities rest acc st v st3 hf] at h
          rw [aggLoop_lookup_untouched f1 f2 f3 cities rest _ st3 out k h hktail]
          exact lookup_dictInsert_ne "source_3_result" k v
            (Ne.symm (hk 3 (List.mem_cons_self _ _))) acc
      · rw [aggLoop_cons_skip f1 f2 f3 cities s rest acc st h1 h2 h3] at h
        exact aggLoop_lookup_untouched f1 f2 f3 cities rest acc st out k h hktail

/-- With "recording" clients — each invocation appends its source id to the
world state — the fetch loop always succeeds and the invocation trace grows
by exactly the requested sources list: one invocation per occurrence, in
request order. -/
theorem aggLoop_trace {V : Type} (v1 v2 v3 : List String → V) (cities : List String) :
    ∀ (sources : List Int) (acc : List (String × V)) (tr : List Int),
      (∀ s ∈ sources, s = 1 ∨ s = 2 ∨ s = 3) →
      ∃ m, WeatherDataSources.aggLoop
          (fun cs t => some (v1 cs, t ++ [1]))
          (fun cs t => some (v2 cs, t ++ [2]))
          (fun cs t => some (v3 cs, t ++ [3])) cities sources acc tr =
        some (m, tr ++ sources)
  | [], acc, tr, _ => ⟨acc, by rw [aggLoop_nil]; simp⟩
  | s :: rest, acc, tr, hv => by
      have hvt : ∀ t ∈ rest, t = 1 ∨ t = 2 ∨ t = 3 :=
        fun t ht => hv t (List.mem_cons_of_mem _ ht)
      rcases hv s (List.mem_cons_self s rest) with rfl | rfl | rfl
      · obtain ⟨m, hm⟩ := aggLoop_trace v1 v2 v3 cities rest
          (dictInsert acc "source_1_result" (v1 cities)) (tr ++ [1]) hvt
        refine ⟨m, ?_⟩
        rw [aggLoop_cons_one _ _ _ cities rest acc tr (v1 cities) (tr ++ [1]) rfl, hm]
        simp
      · obtain ⟨m, hm⟩ := aggLoop_trace v1 v2 v3 cities rest
          (dictInsert acc "source_2_result" (v2 cities)) (tr ++ [2]) hvt
        refine ⟨m, ?_⟩
        rw [aggLoop_cons_two _ _ _ cities rest acc tr (v2 cities) (tr ++ [2]) rfl, hm]
        simp
      · obtain ⟨m, hm⟩ := aggLoop_trace v1 v2 v3 cities rest
          (dictInsert acc "source_3_result" (v3 cities)) (tr ++ [3]) hvt
        refine ⟨m, ?_⟩
        rw [aggLoop_cons_three _ _ _ cities rest acc tr (v3 cities) (tr ++ [3]) rfl, hm]
        simp

/-- With recording clients, after the loop, the value stored under a
requested source's key is that source's (deterministic) fetch result —
the last occurrence's write. -/
theorem aggLoop_lookup_last {V : Type} (v1 v2 v3 : List String → V)
    (cities : List String) :
    ∀ (sources : List Int) (acc : List (String × V)) (tr : List Int)
      (out : List (String × V) × List Int),
      WeatherDataSources.aggLoop
          (fun cs t => some (v1 cs, t ++ [1]))
          (fun cs t => some (v2 cs, t ++ [2]))
          (fun cs t => some (v3 cs, t ++ [3])) cities sources acc tr = some out →
      (∀ s ∈ sources, s = 1 ∨ s = 2 ∨ s = 3) →
      ∀ s ∈ sources, lookupVal out.1 (sourceKey s) =
        some (if s = 1 then v1 cities else if s = 2 then v2 cities else v3 cities)
  | [], _, _, _, _, _, s, hs => absurd hs (List.not_mem_nil s)
  | s₀ :: rest, acc, tr, out, h, hv, s, hs => by
      have hvt : ∀ t ∈ rest, t = 1 ∨ t = 2 ∨ t = 3 :=
        fun t ht => hv t (List.mem_cons_of_mem _ ht)
      rcases hv s₀ (List.mem_cons_self s₀ rest) with rfl | rfl | rfl
      · rw [aggLoop_cons_one _ _ _ cities rest acc tr (v1 cities) (tr ++ [1]) rfl] at h
        by_cases hsr : s ∈ rest
        · exact aggLoop_lookup_last v1 v2 v3 cities rest _ _ out h hvt s hsr
        · have hs1 : s = 1 := by
            rcases List.mem_cons.mp hs with rfl | h'
            · rfl
            · exact absurd h' hsr
          subst hs1
          rw [aggLoop_lookup_untouched _ _ _ cities rest _ (tr ++ [1]) out
            (sourceKey 1) h
            (fun t ht => sourceKey_inj t 1 (hvt t ht) (Or.inl rfl)
              (fun he => hsr (he ▸ ht)))]
          rw [if_pos rfl]
          exact lookup_dictInsert_self "source_1_result" (v1 cities) acc
      · rw [aggLoop_cons_two _ _ _ cities rest acc tr (v2 cities) (tr ++ [2]) rfl] at h
        by_cases hsr : s ∈ rest
        · exact aggLoop_lookup_last v1 v2 v3 cities rest _ _ out h hvt s hsr
        · have hs2 : s = 2 := by
            rcases List.mem_cons.mp hs with rfl | h'
            · rfl
            · exact absurd h' hsr
          subst hs2
          rw [aggLoop_lookup_untouched _ _ _ cities rest _ (tr ++ [2]) out
            (sourceKey 2) h
            (fun t ht => sourceKey_inj t 2 (hvt t ht) (Or.inr (Or.inl rfl))
              (fun he => hsr (he ▸ ht)))]
          rw [if_neg (show (2 : Int) ≠ 1 by decide), if_pos rfl]
          exact lookup_dictInsert_self "source_2_result" (v2 cities) acc
      · rw [aggLoop_cons_three _ _ _ cities rest acc tr (v3 cities) (tr ++ [3]) rfl] at h
        by_cases hsr : s ∈ rest
        · exact aggLoop_lookup_last v1 v2 v3 cities rest _ _ out h hvt s hsr
        · have hs3 : s = 3 := by
            rcases List.mem_cons.mp hs with rfl | h'
            · rfl
            · exact absurd h' hsr
          subst hs3
          rw [aggLoop_lookup_untouched _ _ _ cities rest _ (tr ++ [3]) out
            (sourceKey 3) h
            (fun t ht => sourceKey_inj t 3 (hvt t ht) (Or.inr (Or.inr rfl))
              (fun he => hsr (he ▸ ht)))]
          rw [if_neg (show (3 : Int) ≠ 1 by decide),
            if_neg (show (3 : Int) ≠ 2 by decide)]
          exact lookup_dictInsert_self "source_3_result" (v3 cities) acc

/-! ## Deduplication helpers -/

/-- Membership in the keep-first-occurrence fold. -/
theorem mem_foldl_insert :
    ∀ (l : List Int) (acc : List Int) (s : Int),
      s ∈ l.foldl (fun acc s => if s ∈ acc then acc else acc ++ [s]) acc ↔
        s ∈ acc ∨ s ∈ l
  | [], acc, s => by simp
  | x :: rest, acc, s => by
      simp only [List.foldl_cons]
      rw [mem_foldl_insert rest _ s]
      by_cases hx : x ∈ acc
      · rw [if_pos hx]
        constructor
        · rintro (h | h)
          · exact Or.inl h
          · exact Or.inr (List.mem_cons_of_mem _ h)
        · rintro (h | h)
          · exact Or.inl h
          · rcases List.mem_cons.mp h with rfl | h'
            · exact Or.inl hx
            · exact Or.inr h'
      · rw [if_neg hx]
        simp only [List.mem_append, List.mem_cons, List.mem_singleton]
        tauto

/-- An identifier survives deduplication iff it was requested. -/
theorem mem_firstOccurrences (l : List Int) (s : Int) :
    s ∈ firstOccurrences l ↔ s ∈ l := by
  unfold firstOccurrences
  rw [mem_foldl_insert]
  simp

/-- Deduplicating a non-empty request leaves it non-empty. -/
theorem firstOccurrences_ne_nil (l : List Int) (h : l ≠ []) :
    firstOccurrences l ≠ [] := by
  obtain ⟨x, hx⟩ := List.exists_mem_of_ne_nil l h
  intro he
  exact absurd (he ▸ (mem_firstOccurrences l x).mpr hx) (List.not_mem_nil x)

/-- C10: the aggregation result carries the `"warning"` key exactly when
cities is empty, sources is empty, or some requested source identifier is
invalid; for any other request the key set is exactly the
`source_<id>_result` keys of the requested sources — never a mixture, and
never a key for an unrequested source. -/
theorem C10_result_keys {σ V : Type} (f1 f2 f3 : List String → σ → Option (V × σ))
    (cities : List String) (sources : List Int) (st : σ)
    (res : AggResult V) (st' : σ)
    (h : WeatherDataSources.get_weather f1 f2 f3 cities sources st = some (res, st')) :
    ("warning" ∈ res.keys ↔
      (cities = [] ∨ sources = [] ∨ ∃ s ∈ sources, ¬(s = 1 ∨ s = 2 ∨ s = 3))) ∧
    ((cities ≠ [] ∧ sources ≠ [] ∧ ∀ s ∈ sources, s = 1 ∨ s = 2 ∨ s = 3) →
      ∀ k, k ∈ res.keys ↔ ∃ s ∈ sources, k = sourceKey s) := by
  by_cases hc : cities = []
  · subst hc
    rw [show WeatherDataSources.get_weather f1 f2 f3 [] sources st =
      some (AggResult.warning "no cities were provided", st) from rfl] at h
    simp only [Option.some.injEq, Prod.mk.injEq] at h
    obtain ⟨h1, h2⟩ := h
    subst h1
    constructor
    · simp [AggResult.keys]
    · rintro ⟨hc', _, _⟩
      exact absurd rfl hc'
  · have hc' : ¬cities.length = 0 := by simpa [List.length_eq_zero] using hc
    by_cases hsrc : sources = []
    · subst hsrc
      simp only [WeatherDataSources.get_weather, hc', if_false, List.length_nil,
        List.any_nil, if_true, Option.some.injEq, Prod.mk.injEq] at h
      obtain ⟨h1, h2⟩ := h
      subst h1
      constructor
      · simp [AggResult.keys]
      · rintro ⟨_, hs', _⟩
        exact absurd rfl hs'
    · by_cases hinv : ∃ s ∈ sources, ¬(s = 1 ∨ s = 2 ∨ s = 3)
      · have hs' : ¬sources.length = 0 := by
          simpa [List.length_eq_zero] using hsrc
        have ha : sources.any
            (fun source => !(source == 1) && !(source == 2) && !(source == 3)) =
              true := by
          obtain ⟨s, hsm, hbad⟩ := hinv
          push_neg at hbad
          exact List.any_eq_true.mpr
            ⟨s, hsm, by simp [hbad.1, hbad.2.1, hbad.2.2]⟩
        simp only [WeatherDataSources.get_weather, hc', hs', ha, if_false,
          if_true, Option.some.injEq, Prod.mk.injEq] at h
        obtain ⟨h1, h2⟩ := h
        subst h1
        constructor
        · simp only [AggResult.keys, List.mem_singleton, true_iff]
          exact Or.inr (Or.inr hinv)
        · rintro ⟨_, _, hv⟩
          obtain ⟨s, hsm, hbad⟩ := hinv
          exact absurd (hv s hsm) hbad
      · have hv : ∀ s ∈ sources, s = 1 ∨ s = 2 ∨ s = 3 := by
          push_neg at hinv
          exact hinv
        rw [get_weather_valid f1 f2 f3 cities sources st hc hsrc hv] at h
        rcases hout : WeatherDataSources.aggLoop f1 f2 f3 cities sources [] st with
          _ | out
        · rw [hout] at h
          exact Option.noConfusion h
        · rw [hout] at h
          simp only [Option.map_some', Option.some.injEq, Prod.mk.injEq] at h
          obtain ⟨h1, h2⟩ := h
          subst h1
          have hmem := aggLoop_mem_keys f1 f2 f3 cities sources [] st out hout
          constructor
          · simp only [AggResult.keys]
            rw [hmem "warning"]
            constructor
            · rintro (hk | ⟨s, hsm, hval, heq⟩)
              · simp at hk
              · exact absurd heq.symm (sourceKey_ne_warning s hval)
            · rintro (hce | hse | hinve)
              · exact absurd hce hc
              · exact absurd hse hsrc
              · exact absurd hinve hinv
          · rintro ⟨_, _, _⟩ k
            simp only [AggResult.keys]
            rw [hmem k]
            constructor
            · rintro (hk | ⟨s, hsm, _, rfl⟩)
              · simp at hk
              · exact ⟨s, hsm, rfl⟩
            · rintro ⟨s, hsm, rfl⟩
              exact Or.inr ⟨s, hsm, hv s hsm, rfl⟩

/-- Witness for C10: a valid request for sources `[1, 2]` yields exactly the
two matching keys; `"source_1_result"` is among them because source 1 was
requested. -/
theorem C10_result_keys_witness :
    "source_1_result" ∈
      (AggResult.ok [("source_1_result", (0 : Nat)), ("source_2_result", 0)]).keys ↔
      ∃ s ∈ ([1, 2] : List Int), "source_1_result" = sourceKey s :=
  (C10_result_keys (fun _ (u : Unit) => some ((0 : Nat), u))
    (fun _ u => some (0, u)) (fun _ u => some (0, u)) ["Berlin"] [1, 2] ()
    (.ok [("source_1_result", 0), ("source_2_result", 0)]) () rfl).2
    ⟨by decide, by decide, by decide⟩ "source_1_result"

/-- C5: with duplicate identifiers in a valid request, the Aggregator
invokes the matching Source Client once per occurrence in request order
(the recording clients' final trace is the `sources` list itself), every
occurrence writes the same `source_<id>_result` key so the stored value is
the last occurrence's result, and the key set equals the key set produced
by the deduplicated (first-occurrences) sources list. -/
theorem C5_duplicate_sources {V : Type} (v1 v2 v3 : List String → V)
    (cities : List String) (sources : List Int)
    (hc : cities ≠ []) (hs : sources ≠ [])
    (hv : ∀ s ∈ sources, s = 1 ∨ s = 2 ∨ s = 3) :
    ∃ m m',
      WeatherDataSources.get_weather
          (fun cs tr => some (v1 cs, tr ++ [1]))
          (fun cs tr => some (v2 cs, tr ++ [2]))
          (fun cs tr => some (v3 cs, tr ++ [3])) cities sources [] =
        some (.ok m, sources) ∧
      WeatherDataSources.get_weather
          (fun cs tr => some (v1 cs, tr ++ [1]))
          (fun cs tr => some (v2 cs, tr ++ [2]))
          (fun cs tr => some (v3 cs, tr ++ [3])) cities
          (firstOccurrences sources) [] =
        some (.ok m', firstOccurrences sources) ∧
      (∀ s ∈ sources, lookupVal m (sourceKey s) =
        some (if s = 1 then v1 cities else if s = 2 then v2 cities
          else v3 cities)) ∧
      (∀ (acc : List (String × V)) (k : String) (v v' : V),
        lookupVal (dictInsert (dictInsert acc k v) k v') k = some v') ∧
      (∀ k, k ∈ m.map Prod.fst ↔ k ∈ m'.map Prod.fst) := by
  obtain ⟨m, hm⟩ := aggLoop_trace v1 v2 v3 cities sources [] [] hv
  have hv' : ∀ s ∈ firstOccurrences sources, s = 1 ∨ s = 2 ∨ s = 3 :=
    fun s hsm => hv s ((mem_firstOccurrences sources s).mp hsm)
  obtain ⟨m', hm'⟩ := aggLoop_trace v1 v2 v3 cities
    (firstOccurrences sources) [] [] hv'
  refine ⟨m, m', ?_, ?_, ?_,
    fun acc k v v' => lookup_dictInsert_self k v' (dictInsert acc k v), ?_⟩
  · rw [get_weather_valid _ _ _ cities sources [] hc hs hv, hm]
    simp
  · rw [get_weather_valid _ _ _ cities (firstOccurrences sources) [] hc
      (firstOccurrences_ne_nil sources hs) hv', hm']
    simp
  · intro s hsm
    exact aggLoop_lookup_last v1 v2 v3 cities sources [] []
      (m, [] ++ sources) hm hv s hsm
  · intro k
    have h1 := aggLoop_mem_keys _ _ _ cities sources [] []
      (m, [] ++ sources) hm k
    have h2 := aggLoop_mem_keys _ _ _ cities (firstOccurrences sources) [] []
      (m', [] ++ firstOccurrences sources) hm' k
    rw [h1, h2]
    simp only [List.map_nil, List.not_mem_nil, false_or]
    constructor
    · rintro ⟨s, hsm, hval, rfl⟩
      exact ⟨s, (mem_firstOccurrences sources s).mpr hsm, hval, rfl⟩
    · rintro ⟨s, hsm, hval, rfl⟩
      exact ⟨s, (mem_firstOccurrences sources s).mp hsm, hval, rfl⟩

/-- Witness for C5: request `[1, 1, 2]` — source 1 is fetched twice (the
trace is `[1, 1, 2]`), the stored values are the pure clients' results, and
the key set matches the deduplicated request `[1, 2]`. -/
theorem C5_duplicate_sources_witness :
    ∃ m m',
      WeatherDataSources.get_weather
          (fun _ (tr : List Int) => some ((10 : Nat), tr ++ [1]))
          (fun _ tr => some (20, tr ++ [2]))
          (fun _ tr => some (30, tr ++ [3]))
          ["Berlin"] [1, 1, 2] [] =
        some (.ok m, [1, 1, 2]) ∧
      WeatherDataSources.get_weather
          (fun _ (tr : List Int) => some ((10 : Nat), tr ++ [1]))
          (fun _ tr => some (20, tr ++ [2]))
          (fun _ tr => some (30, tr ++ [3]))
          ["Berlin"] (firstOccurrences [1, 1, 2]) [] =
        some (.ok m', firstOccurrences [1, 1, 2]) ∧
      (∀ s ∈ ([1, 1, 2] : List Int), lookupVal m (sourceKey s) =
        some (if s = 1 then (10 : Nat) else if s = 2 then 20 else 30)) ∧
      (∀ (acc : List (String × Nat)) (k : String) (v v' : Nat),
        lookupVal (dictInsert (dictInsert acc k v) k v') k = some v') ∧
      (∀ k, k ∈ m.map Prod.fst ↔ k ∈ m'.map Prod.fst) :=
  C5_duplicate_sources (fun _ => 10) (fun _ => 20) (fun _ => 30)
    ["Berlin"] [1, 1, 2] (by decide) (by decide) (by decide)

/-- C2 counterexample: for source 3, the value stored under
`source_3_result` is the file scan, not one record per requested city —
with an empty file and the request `["Berlin"]` the stored sequence has
length 0, not 1. -/
theorem C2_single_source_counterexample :
    aggregateApp (fun _ => .null) (fun _ => .null) [] ["Berlin"] [3] =
      some (.ok [("source_3_result", .rows [])]) ∧
    (SourceResult.rows []).length ≠ (["Berlin"] : List String).length :=
  ⟨rfl, by decide⟩

/-- C2 amended: for a valid single-source request the result map has
exactly the one key `source_<s>_result`.  For sources 1 and 2, whenever
each per-city transform succeeds, the stored sequence pairs the requested
cities one-to-one, in input order (hence its length equals the number of
cities).  For source 3 the stored value is the linear file scan, whose
length is the number of row/city matches, not the number of cities. -/
theorem C2_single_source_amended (resp1 resp2 : String → JSON) (data : List Row)
    (cities : List String) (hc : cities ≠ [])
    (h1 : ∀ c ∈ cities, ∃ r, WeatherAPI.transform_response (resp1 c) = some r)
    (h2 : ∀ c ∈ cities, ∃ r, WeathermapAPI.transform_response (resp2 c) = some r) :
    (∃ recs, aggregateApp resp1 resp2 data cities [1] =
        some (.ok [("source_1_result", .recs recs)]) ∧
      recs.length = cities.length ∧
      List.Forall₂ (fun c r => WeatherAPI.transform_response (resp1 c) = some r)
        cities recs) ∧
    (∃ recs, aggregateApp resp1 resp2 data cities [2] =
        some (.ok [("source_2_result", .recs recs)]) ∧
      recs.length = cities.length ∧
      List.Forall₂ (fun c r => WeathermapAPI.transform_response (resp2 c) = some r)
        cities recs) ∧
    aggregateApp resp1 resp2 data cities [3] =
      some (.ok [("source_3_result", .rows (WeatherDataAPI.get_weather data cities))]) := by
  refine ⟨?_, ?_, ?_⟩
  · obtain ⟨recs, hr, hfa⟩ := getWeatherA_forall₂ resp1 cities h1
    refine ⟨recs, ?_, (List.Forall₂.length_eq hfa).symm, hfa⟩
    unfold aggregateApp
    rw [get_weather_valid _ _ _ cities [1] () hc (by simp)
      (by intro s hsm; rw [List.mem_singleton] at hsm; exact Or.inl hsm)]
    rw [aggLoop_cons_one _ _ _ cities [] [] () (SourceResult.recs recs) ()
      (by rw [hr]; rfl)]
    rw [aggLoop_nil]
    rfl
  · obtain ⟨recs, hr, hfa⟩ := getWeatherB_forall₂ resp2 cities h2
    refine ⟨recs, ?_, (List.Forall₂.length_eq hfa).symm, hfa⟩
    unfold aggregateApp
    rw [get_weather_valid _ _ _ cities [2] () hc (by simp)
      (by intro s hsm; rw [List.mem_singleton] at hsm; exact Or.inr (Or.inl hsm))]
    rw [aggLoop_cons_two _ _ _ cities [] [] () (SourceResult.recs recs) ()
      (by rw [hr]; rfl)]
    rw [aggLoop_nil]
    rfl
  · unfold aggregateApp
    rw [get_weather_valid _ _ _ cities [3] () hc (by simp)
      (by intro s hsm; rw [List.mem_singleton] at hsm; exact Or.inr (Or.inr hsm))]
    rw [aggLoop_cons_three _ _ _ cities [] [] ()
      (SourceResult.rows (WeatherDataAPI.get_weather data cities)) () rfl]
    rw [aggLoop_nil]
    rfl

/-- Witness for the amended C2: well-behaved oracles for both providers and
an empty file, requesting `["Berlin"]`. -/
theorem C2_single_source_amended_witness :
    (∃ recs, aggregateApp
        (fun c => .obj [("location", .obj [("name", .str c)]),
          ("current", .obj [("temp_c", .num 0), ("condition", .obj [("text", .null)])])])
        (fun c => .obj [("name", .str c), ("main", .obj [("temp", .num 0)]),
          ("weather", .arr [.obj []])])
        [] ["Berlin"] [1] =
        some (.ok [("source_1_result", .recs recs)]) ∧
      recs.length = (["Berlin"] : List String).length ∧
      List.Forall₂ (fun c r => WeatherAPI.transform_response
          ((fun c => JSON.obj [("location", .obj [("name", .str c)]),
            ("current", .obj [("temp_c", .num 0),
              ("condition", .obj [("text", .null)])])]) c) = some r)
        ["Berlin"] recs) ∧
    (∃ recs, aggregateApp
        (fun c => .obj [("location", .obj [("name", .str c)]),
          ("current", .obj [("temp_c", .num 0), ("condition", .obj [("text", .null)])])])
        (fun c => .obj [("name", .str c), ("main", .obj [("temp", .num 0)]),
          ("weather", .arr [.obj []])])
        [] ["Berlin"] [2] =
        some (.ok [("source_2_result", .recs recs)]) ∧
      recs.length = (["Berlin"] : List String).length ∧
      List.Forall₂ (fun c r => WeathermapAPI.transform_response
          ((fun c => JSON.obj [("name", .str c), ("main", .obj [("temp", .num 0)]),
            ("weather", .arr [.obj []])]) c) = some r)
        ["Berlin"] recs) ∧
    aggregateApp
        (fun c => .obj [("location", .obj [("name", .str c)]),
          ("current", .obj [("temp_c", .num 0), ("condition", .obj [("text", .null)])])])
        (fun c => .obj [("name", .str c), ("main", .obj [("temp", .num 0)]),
          ("weather", .arr [.obj []])])
        [] ["Berlin"] [3] =
      some (.ok [("source_3_result", .rows (WeatherDataAPI.get_weather [] ["Berlin"]))]) :=
  C2_single_source_amended _ _ [] ["Berlin"] (by decide)
    (fun c _ => ⟨⟨.str c, .num 0, .null⟩, rfl⟩)
    (fun c _ => ⟨⟨.str c, .num 0, .null⟩, rfl⟩)
